import Mathlib

/-!
Verification of the air-canada-lost-found backend core: data model, the
item lifecycle operations (deliver, revert, update, delete), the
authentication gate, registration, and the permission catalog operations,
shallowly embedded from the TypeScript sources.  Persistent Mongo
collections are modelled as Lean lists, documents as structures,
ObjectIds and dates as natural numbers, and route handlers as pure
functions from a store state to a result paired with the next state.
-/

namespace AirCanadaLF

/-- Image record stored by the Cloudinary upload (url, publicId, thumbnailUrl). -/
structure Image where
  url : String
  publicId : String
  thumbnailUrl : String
  deriving Repr, DecidableEq

/-- User document (models/User): employee number unique, role string, list of
permission references (ObjectIds, modelled as Nat). -/
structure User where
  id : Nat
  employeeNumber : String
  password : String
  firstName : String
  lastName : String
  role : String
  permissions : List Nat
  createdAt : Nat
  updatedAt : Nat
  deriving Repr, DecidableEq

/-- Customer delivery data embedded in a DeliveredItem (models/DeliveredItem). -/
structure CustomerInfo where
  name : String
  email : String
  phone : String
  identification : String
  signature : String
  deriving Repr, DecidableEq

/-- LostItem document (models/LostItem, the variant whose status enumeration is
pending/onHand/delivered/archived with default onHand, the one the routes
store onHand into).  The optional deliveredBy/deliveredAt fields are set by
DeliveredItemsService.markAsDelivered. -/
structure LostItem where
  id : Nat
  itemName : String
  description : String
  location : String
  category : String
  status : String
  images : List Image
  foundBy : Nat
  supervisor : Nat
  flightNumber : String
  dateFound : Nat
  deliveredBy : Option Nat
  deliveredAt : Option Nat
  deriving Repr, DecidableEq

/-- DeliveredItem document (models/DeliveredItem). -/
structure DeliveredItem where
  id : Nat
  itemName : String
  description : String
  location : String
  category : String
  images : List Image
  foundBy : Nat
  supervisor : Nat
  customerInfo : CustomerInfo
  deliveryNotes : String
  deliveryPhotos : List Image
  deliveredBy : Nat
  flightNumber : String
  dateFound : Nat
  dateDelivered : Nat
  archived : Bool
  deriving Repr, DecidableEq

/-- The two item collections (LostItems and DeliveredItems). -/
structure St where
  lostItems : List LostItem
  deliveredItems : List DeliveredItem
  deriving Repr, DecidableEq

/-- Permission document (models/Permission): unique name plus description. -/
structure Permission where
  id : Nat
  name : String
  description : String
  deriving Repr, DecidableEq

/-- Users and the permission catalog, the state touched by the permission and
auth routes. -/
structure PermSt where
  perms : List Permission
  users : List User
  deriving Repr, DecidableEq

/-- ASCII lower-casing of one character, as String.prototype.toLowerCase acts
on the ASCII status vocabulary. -/
def lowerChar (c : Char) : Char :=
  if 65 ≤ c.toNat ∧ c.toNat ≤ 90 then Char.ofNat (c.toNat + 32) else c

/-- ASCII lower-casing of a string. -/
def lowerStr (s : String) : String :=
  String.mk (s.data.map lowerChar)

/-- normalizeStatus from the lost-items and delivered-items routers: a fixed
map keyed by the lower-cased input, falling back to the input itself when the
key is absent (statusMap[status.toLowerCase()] || status). -/
def normalizeStatus (status : String) : String :=
  let key := lowerStr status
  if key = "on-hand" then "onHand"
  else if key = "in-process" then "inProcess"
  else if key = "delivered" then "delivered"
  else status

/-- LostItem.findById over the lost-items collection. -/
def findLost (items : List LostItem) (itemId : Nat) : Option LostItem :=
  items.find? (fun i => i.id == itemId)

/-- DeliveredItem.findById over the delivered-items collection. -/
def findDelivered (items : List DeliveredItem) (deliveredId : Nat) : Option DeliveredItem :=
  items.find? (fun d => d.id == deliveredId)

/-- User.findById over the users collection. -/
def findUser (users : List User) (uid : Nat) : Option User :=
  users.find? (fun u => u.id == uid)

/-- Errors the item route handlers can report (404, 403, 400). -/
inductive ItemErr where
  | notFound
  | forbidden
  | missingFields
  deriving Repr, DecidableEq

/-- Request body of PUT /:id/deliver: the parsed customerInfo JSON
(receiverName, receiverEmail, receiverPhone, receiverIdentification, notes),
the signature field and the uploaded delivery photos.  A JS-falsy absent
field is modelled as the empty string. -/
structure DeliverRequest where
  receiverName : String
  receiverEmail : String
  receiverPhone : String
  receiverIdentification : String
  notes : String
  signature : String
  photos : List Image
  deriving Repr, DecidableEq

/-- PUT /:id/deliver of the lost-items router: finds the LostItem, rejects
when any of receiverName/receiverEmail/receiverPhone/receiverIdentification
or signature is missing, builds a DeliveredItem copying the descriptive
fields and found-images (itemName falls back to description when empty,
mirroring item.itemName || item.description), sets the acting user as
deliveredBy and archived to false, saves it, then deletes the source
LostItem by id (LostItem.findByIdAndDelete). -/
def deliverItem (st : St) (itemId : Nat) (req : DeliverRequest) (actorId : Nat)
    (now : Nat) (newId : Nat) : Except ItemErr DeliveredItem × St :=
  match findLost st.lostItems itemId with
  | none => (.error .notFound, st)
  | some item =>
    if req.receiverName = "" ∨ req.receiverEmail = "" ∨ req.receiverPhone = ""
        ∨ req.receiverIdentification = "" ∨ req.signature = "" then
      (.error .missingFields, st)
    else
      let d : DeliveredItem :=
        { id := newId
          itemName := if item.itemName = "" then item.description else item.itemName
          flightNumber := item.flightNumber
          dateFound := item.dateFound
          location := item.location
          description := item.description
          category := item.category
          foundBy := item.foundBy
          supervisor := item.supervisor
          images := item.images
          customerInfo :=
            { name := req.receiverName
              email := req.receiverEmail
              phone := req.receiverPhone
              identification := req.receiverIdentification
              signature := req.signature }
          deliveryNotes := req.notes
          deliveryPhotos := req.photos
          deliveredBy := actorId
          dateDelivered := now
          archived := false }
      (.ok d,
       { lostItems := st.lostItems.filter (fun i => i.id != itemId)
         deliveredItems := st.deliveredItems ++ [d] })

/-- Delivery data handed to DeliveredItemsService.markAsDelivered
(customerName, customerEmail, customerPhone). -/
structure DeliveryData where
  customerName : String
  customerEmail : String
  customerPhone : String
  deriving Repr, DecidableEq

/-- DeliveredItemsService.createDeliveredItem: builds and saves a
DeliveredItem copying the descriptive fields of the lost item.  The schema
this service writes to carries only name/email/phone customer data and no
deliveredBy, delivery notes or delivery photos; those fields are modelled
as empty. -/
def createDeliveredItem (item : LostItem) (info : DeliveryData)
    (now newId : Nat) : DeliveredItem :=
  { id := newId
    itemName := item.itemName
    description := item.description
    location := item.location
    category := item.category
    images := item.images
    foundBy := item.foundBy
    supervisor := item.supervisor
    flightNumber := item.flightNumber
    dateFound := item.dateFound
    dateDelivered := now
    archived := false
    customerInfo :=
      { name := info.customerName
        email := info.customerEmail
        phone := info.customerPhone
        identification := ""
        signature := "" }
    deliveryNotes := ""
    deliveryPhotos := []
    deliveredBy := 0 }

/-- DeliveredItemsService.markAsDelivered: creates a DeliveredItem via
createDeliveredItem, then runs LostItemModel.findByIdAndUpdate on the source
item setting status to delivered plus deliveredBy/deliveredAt — the source
LostItem is updated in place, not deleted. -/
def markAsDelivered (st : St) (item : LostItem) (info : DeliveryData)
    (deliveredBy : Nat) (now newId : Nat) : DeliveredItem × St :=
  let d := createDeliveredItem item info now newId
  (d,
   { lostItems := st.lostItems.map (fun i =>
       if i.id = item.id then
         { i with status := "delivered", deliveredBy := some deliveredBy,
                  deliveredAt := some now }
       else i)
     deliveredItems := st.deliveredItems ++ [d] })

/-- POST /:id/revert of the delivered-items router (auth + checkRole admin):
finds the DeliveredItem, builds a new LostItem from it (itemName,
flightNumber, description, location, category, images, foundBy carried over;
the acting user becomes supervisor; dateFound is set to
deliveredItem.dateDelivered; status falls to the schema default onHand),
saves it, then deletes the DeliveredItem. -/
def revertItem (st : St) (deliveredId : Nat) (actor : User) (newLostId : Nat) :
    Except ItemErr LostItem × St :=
  if actor.role ≠ "admin" then (.error .forbidden, st)
  else
    match findDelivered st.deliveredItems deliveredId with
    | none => (.error .notFound, st)
    | some d =>
      let lostItem : LostItem :=
        { id := newLostId
          itemName := d.itemName
          flightNumber := d.flightNumber
          description := d.description
          location := d.location
          category := d.category
          images := d.images
          foundBy := d.foundBy
          supervisor := actor.id
          dateFound := d.dateDelivered
          status := "onHand"
          deliveredBy := none
          deliveredAt := none }
      (.ok lostItem,
       { lostItems := st.lostItems ++ [lostItem]
         deliveredItems := st.deliveredItems.filter (fun x => x.id != deliveredId) })

/-- Update payload of the lost-items PUT /:id handlers; absent fields are
none.  Only the fields the embedded routes read are modelled. -/
structure UpdatePayload where
  itemName : Option String
  description : Option String
  location : Option String
  category : Option String
  flightNumber : Option String
  status : Option String
  dateFound : Option Nat
  deriving Repr, DecidableEq

/-- Spread of otherUpdates over an item (Object.assign of the payload fields
other than status and dateFound). -/
def applyOther (item : LostItem) (p : UpdatePayload) : LostItem :=
  { item with
    itemName := p.itemName.getD item.itemName
    description := p.description.getD item.description
    location := p.location.getD item.location
    category := p.category.getD item.category
    flightNumber := p.flightNumber.getD item.flightNumber }

/-- PUT /:id of the first lost-items router: 404 when absent, 403 unless the
actor is admin, supervisor or the foundBy owner, then applies the payload
with dateFound defaulted to the stored value and status (when supplied and
truthy) passed through normalizeStatus. -/
def updateItem1 (st : St) (itemId : Nat) (actor : User) (p : UpdatePayload) :
    Except ItemErr LostItem × St :=
  match findLost st.lostItems itemId with
  | none => (.error .notFound, st)
  | some item =>
    if actor.role ≠ "admin" ∧ actor.role ≠ "supervisor" ∧ item.foundBy ≠ actor.id then
      (.error .forbidden, st)
    else
      let base := applyOther item p
      let base := { base with dateFound := p.dateFound.getD item.dateFound }
      let updated :=
        match p.status with
        | some s => if s = "" then base else { base with status := normalizeStatus s }
        | none => base
      (.ok updated,
       { st with lostItems := st.lostItems.map (fun i => if i.id = itemId then updated else i) })

/-- PUT /:id of the second lost-items router: 404 when absent, then
findByIdAndUpdate with a $set of the raw payload — no role or ownership
check and no status normalization. -/
def updateItem2 (st : St) (itemId : Nat) (actor : User) (p : UpdatePayload) :
    Except ItemErr LostItem × St :=
  match findLost st.lostItems itemId with
  | none => (.error .notFound, st)
  | some item =>
    let _ := actor
    let base := applyOther item p
    let updated := { base with
                     dateFound := p.dateFound.getD item.dateFound
                     status := p.status.getD item.status }
    (.ok updated,
     { st with lostItems := st.lostItems.map (fun i => if i.id = itemId then updated else i) })

/-- DELETE /:id of the first lost-items router: 404 when absent, 403 unless
the actor is admin, supervisor or the foundBy owner, then deletes the item
(Cloudinary image deletion is best-effort and out of scope). -/
def deleteItem1 (st : St) (itemId : Nat) (actor : User) : Except ItemErr Unit × St :=
  match findLost st.lostItems itemId with
  | none => (.error .notFound, st)
  | some item =>
    if actor.role ≠ "admin" ∧ actor.role ≠ "supervisor" ∧ item.foundBy ≠ actor.id then
      (.error .forbidden, st)
    else
      (.ok (), { st with lostItems := st.lostItems.filter (fun i => i.id != itemId) })

/-- DELETE /:id of the second lost-items router: 404 when absent, then
deletes the item with no role or ownership check. -/
def deleteItem2 (st : St) (itemId : Nat) (actor : User) : Except ItemErr Unit × St :=
  match findLost st.lostItems itemId with
  | none => (.error .notFound, st)
  | some _ =>
    let _ := actor
    (.ok (), { st with lostItems := st.lostItems.filter (fun i => i.id != itemId) })

/-- Outcome of verifying the bearer credential, covering the branches of the
auth middleware: no Authorization header, jwt.verify throwing on a bad
signature, jwt.verify throwing on expiry, or a verified payload carrying the
user id. -/
inductive Credential where
  | missing
  | badSignature
  | expired
  | valid (userId : Nat)
  deriving Repr, DecidableEq

/-- 401 codes of the auth middleware: NO_TOKEN, INVALID_TOKEN,
USER_NOT_FOUND. -/
inductive AuthErr where
  | noToken
  | invalidToken
  | userNotFound
  deriving Repr, DecidableEq

/-- The normalized identity context the auth middleware attaches to the
request (req.user). -/
structure Identity where
  id : Nat
  employeeNumber : String
  firstName : String
  lastName : String
  role : String
  permissions : List String
  createdAt : Nat
  updatedAt : Nat
  deriving Repr, DecidableEq

/-- Builds req.user from the loaded User record; permissions are mapped to
strings (perm.toString()). -/
def mkIdentity (u : User) : Identity :=
  { id := u.id
    employeeNumber := u.employeeNumber
    firstName := u.firstName
    lastName := u.lastName
    role := u.role
    permissions := u.permissions.map (fun p => toString p)
    createdAt := u.createdAt
    updatedAt := u.updatedAt }

/-- The auth middleware: 401 NO_TOKEN with no header, 401 INVALID_TOKEN when
jwt.verify throws (bad signature or expired), 401 USER_NOT_FOUND when the
referenced User record is gone, otherwise attaches the normalized identity
and calls next(). -/
def authGate (users : List User) (cred : Credential) : Except AuthErr Identity :=
  match cred with
  | .missing => .error .noToken
  | .badSignature => .error .invalidToken
  | .expired => .error .invalidToken
  | .valid uid =>
    match findUser users uid with
    | none => .error .userNotFound
    | some u => .ok (mkIdentity u)

/-- Registration request body; role models an extra field a client may
supply, which the handlers never destructure. -/
structure RegisterPayload where
  employeeNumber : String
  password : String
  firstName : String
  lastName : String
  role : String
  deriving Repr, DecidableEq

/-- Failure modes of the register handlers. -/
inductive RegErr where
  | employeeNumberExists
  | permissionsMissing
  deriving Repr, DecidableEq

/-- The default permission names the first register handler looks up. -/
def defaultPermissionNames : List String :=
  ["view_items", "view_dashboard", "edit_items", "view_reports"]

/-- POST /register of the first auth router: rejects a duplicate employee
number, loads the default permissions (500 when none exist), creates the
user with role hard-coded to employee and the default permission
references. -/
def register1 (users : List User) (catalog : List Permission)
    (p : RegisterPayload) (newId now : Nat) : Except RegErr User :=
  if (users.find? (fun u => u.employeeNumber == p.employeeNumber)).isSome then
    .error .employeeNumberExists
  else
    let defaults := catalog.filter (fun q => defaultPermissionNames.contains q.name)
    if defaults.length = 0 then .error .permissionsMissing
    else
      .ok { id := newId
            employeeNumber := p.employeeNumber
            password := p.password
            firstName := p.firstName
            lastName := p.lastName
            role := "employee"
            permissions := defaults.map (fun q => q.id)
            createdAt := now
            updatedAt := now }

/-- POST /register of the second auth router: rejects a duplicate employee
number, creates the user with role hard-coded to employee. -/
def register2 (users : List User) (p : RegisterPayload) (newId now : Nat) :
    Except RegErr User :=
  if (users.find? (fun u => u.employeeNumber == p.employeeNumber)).isSome then
    .error .employeeNumberExists
  else
    .ok { id := newId
          employeeNumber := p.employeeNumber
          password := p.password
          firstName := p.firstName
          lastName := p.lastName
          role := "employee"
          permissions := []
          createdAt := now
          updatedAt := now }

/-- Diagnostic user entry listed when a permission deletion is blocked
(id, name as firstName lastName, employeeNumber). -/
structure RefUser where
  id : Nat
  name : String
  employeeNumber : String
  deriving Repr, DecidableEq

/-- Builds one diagnostic entry of the PERMISSION_IN_USE response. -/
def mkRefUser (u : User) : RefUser :=
  { id := u.id
    name := u.firstName ++ " " ++ u.lastName
    employeeNumber := u.employeeNumber }

/-- Outcomes of DELETE /:id on the permission router. -/
inductive DelPermRes where
  | forbidden
  | notFound
  | inUse (users : List RefUser)
  | success
  deriving Repr, DecidableEq

/-- DELETE /:id of the permission router: admin only, 404 when the
permission is absent, PERMISSION_IN_USE listing every referencing user when
User.find(permissions: id) is nonempty, otherwise deletes the permission. -/
def deletePermission (st : PermSt) (actor : User) (permId : Nat) :
    DelPermRes × PermSt :=
  if actor.role ≠ "admin" then (.forbidden, st)
  else
    match st.perms.find? (fun q => q.id == permId) with
    | none => (.notFound, st)
    | some q =>
      let refs := st.users.filter (fun u => u.permissions.contains q.id)
      if refs.length > 0 then (.inUse (refs.map mkRefUser), st)
      else (.success, { st with perms := st.perms.filter (fun r => r.id != permId) })

/-- Outcomes of PUT /users/:userId/permissions. -/
inductive UpdPermRes where
  | forbidden
  | invalidPermissions
  | userNotFound
  | success (permIds : List Nat)
  deriving Repr, DecidableEq

/-- PUT /users/:userId/permissions of the auth router: admin only; resolves
Permission.find(name: $in names) as the catalog entries whose name occurs in
the request list, rejects with Invalid permissions provided unless the match
count equals the request list length, then replaces the target user
permission set with the resolved references. -/
def updateUserPermissions (st : PermSt) (actor : User) (userId : Nat)
    (names : List String) : UpdPermRes × PermSt :=
  if actor.role ≠ "admin" then (.forbidden, st)
  else
    let validPermissions := st.perms.filter (fun q => names.contains q.name)
    if validPermissions.length ≠ names.length then (.invalidPermissions, st)
    else
      match findUser st.users userId with
      | none => (.userNotFound, st)
      | some _ =>
        let ids := validPermissions.map (fun q => q.id)
        (.success ids,
         { st with users := st.users.map (fun u =>
             if u.id = userId then { u with permissions := ids } else u) })

/-- User data embedded in a listed item after populate. -/
structure UserInfo where
  id : Nat
  firstName : String
  lastName : String
  employeeNumber : String
  deriving Repr, DecidableEq

/-- A populated user reference on a fetched item: null/undefined, a bare
identifier string populate left unresolved, or the resolved record. -/
inductive UserRef where
  | missing
  | unresolved (id : Nat)
  | resolved (u : UserInfo)
  deriving Repr, DecidableEq

/-- createPlaceholderUser of the lost-items GET / handler: firstName
Unknown, lastName User, employeeNumber N/A, and a freshly generated ObjectId
(new Types.ObjectId()), modelled by the freshId argument. -/
def createPlaceholderUser (freshId : Nat) : UserInfo :=
  { id := freshId
    firstName := "Unknown"
    lastName := "User"
    employeeNumber := "N/A" }

/-- The per-reference cleanup of the list handlers: a missing reference or a
bare identifier is replaced by the placeholder, a resolved record is kept. -/
def cleanRef (freshId : Nat) (r : UserRef) : UserInfo :=
  match r with
  | .resolved u => u
  | .missing => createPlaceholderUser freshId
  | .unresolved _ => createPlaceholderUser freshId

/-- An item as fetched with populate, before cleanup. -/
structure RawListedItem where
  itemId : Nat
  foundBy : UserRef
  supervisor : UserRef
  deliveredBy : UserRef
  deriving Repr, DecidableEq

/-- An item as returned to the client, with every user reference resolved. -/
structure CleanedItem where
  itemId : Nat
  foundBy : UserInfo
  supervisor : UserInfo
  deliveredBy : UserInfo
  deriving Repr, DecidableEq

/-- The cleanup of one fetched item: each of the three references passes
through cleanRef, consuming one fresh ObjectId apiece. -/
def cleanItem (f1 f2 f3 : Nat) (it : RawListedItem) : CleanedItem :=
  { itemId := it.itemId
    foundBy := cleanRef f1 it.foundBy
    supervisor := cleanRef f2 it.supervisor
    deliveredBy := cleanRef f3 it.deliveredBy }

/-- The cleanedItems map of the list handlers: every fetched item is cleaned
and returned; gen supplies the stream of freshly generated ObjectIds. -/
def listItems (gen : Nat → Nat) (items : List RawListedItem) : List CleanedItem :=
  items.enum.map (fun e =>
    cleanItem (gen (3 * e.1)) (gen (3 * e.1 + 1)) (gen (3 * e.1 + 2)) e.2)

end AirCanadaLF

namespace AirCanadaLF

/-- Claim C6: every status string of the external hyphenated vocabulary
normalizes to the same internal state token as the token itself:
normalizeStatus "on-hand" = normalizeStatus "onHand" = "onHand",
normalizeStatus "in-process" = normalizeStatus "inProcess" = "inProcess",
and normalizeStatus "delivered" = "delivered". -/
theorem normalizeStatus_external_vocabulary :
    normalizeStatus "on-hand" = "onHand" ∧
    normalizeStatus "onHand" = "onHand" ∧
    normalizeStatus "in-process" = "inProcess" ∧
    normalizeStatus "inProcess" = "inProcess" ∧
    normalizeStatus "delivered" = "delivered" ∧
    normalizeStatus "on-hand" = normalizeStatus "onHand" ∧
    normalizeStatus "in-process" = normalizeStatus "inProcess" := by
  refine ⟨rfl, rfl, rfl, rfl, rfl, rfl, rfl⟩

/-- Claim C1: for every stored LostItem and every delivery request whose
customer fields (name, email, phone, identification, signature) are all
present, the deliver operation creates exactly one DeliveredItem copying the
descriptive fields and the found-images, with archived false and deliveredBy
the acting authenticated identity, and then deletes the source LostItem, so
zero LostItem remains for that logical item. -/
theorem deliverItem_migrates_lost_item
    (st : St) (itemId : Nat) (req : DeliverRequest) (actorId now newId : Nat)
    (item : LostItem)
    (hfind : findLost st.lostItems itemId = some item)
    (hname : item.itemName ≠ "")
    (h1 : req.receiverName ≠ "") (h2 : req.receiverEmail ≠ "")
    (h3 : req.receiverPhone ≠ "") (h4 : req.receiverIdentification ≠ "")
    (h5 : req.signature ≠ "") :
    ∃ d : DeliveredItem,
      (deliverItem st itemId req actorId now newId).1 = .ok d ∧
      (deliverItem st itemId req actorId now newId).2.deliveredItems
        = st.deliveredItems ++ [d] ∧
      d.itemName = item.itemName ∧
      d.description = item.description ∧
      d.location = item.location ∧
      d.category = item.category ∧
      d.flightNumber = item.flightNumber ∧
      d.dateFound = item.dateFound ∧
      d.images = item.images ∧
      d.archived = false ∧
      d.deliveredBy = actorId ∧
      ((deliverItem st itemId req actorId now newId).2.lostItems.countP
        (fun i => i.id == itemId)) = 0 := by
  simp only [deliverItem, hfind]
  rw [if_neg (by simp [h1, h2, h3, h4, h5])]
  refine ⟨_, rfl, rfl, by simp [hname], rfl, rfl, rfl, rfl, rfl, rfl, rfl, rfl, ?_⟩
  rw [List.countP_eq_zero]
  intro a ha
  rw [List.mem_filter] at ha
  simpa using ha.2

/-- Witness for C1: a concrete store with one lost item and a complete
delivery request. -/
theorem deliverItem_migrates_lost_item_witness :
    ∃ d : DeliveredItem,
      (deliverItem ⟨[⟨1, "Bag", "Black bag", "YYZ", "Luggage", "onHand", [],
          2, 3, "AC101", 10, none, none⟩], []⟩
        1 ⟨"Cust", "c@x", "555", "ID9", "note", "sig", []⟩ 7 100 9).1 = .ok d ∧
      (deliverItem ⟨[⟨1, "Bag", "Black bag", "YYZ", "Luggage", "onHand", [],
          2, 3, "AC101", 10, none, none⟩], []⟩
        1 ⟨"Cust", "c@x", "555", "ID9", "note", "sig", []⟩ 7 100 9).2.deliveredItems
        = [] ++ [d] ∧
      d.itemName = "Bag" ∧
      d.description = "Black bag" ∧
      d.location = "YYZ" ∧
      d.category = "Luggage" ∧
      d.flightNumber = "AC101" ∧
      d.dateFound = 10 ∧
      d.images = [] ∧
      d.archived = false ∧
      d.deliveredBy = 7 ∧
      ((deliverItem ⟨[⟨1, "Bag", "Black bag", "YYZ", "Luggage", "onHand", [],
          2, 3, "AC101", 10, none, none⟩], []⟩
        1 ⟨"Cust", "c@x", "555", "ID9", "note", "sig", []⟩ 7 100 9).2.lostItems.countP
        (fun i => i.id == 1)) = 0 :=
  deliverItem_migrates_lost_item
    ⟨[⟨1, "Bag", "Black bag", "YYZ", "Luggage", "onHand", [],
        2, 3, "AC101", 10, none, none⟩], []⟩
    1 ⟨"Cust", "c@x", "555", "ID9", "note", "sig", []⟩ 7 100 9
    ⟨1, "Bag", "Black bag", "YYZ", "Luggage", "onHand", [],
      2, 3, "AC101", 10, none, none⟩
    rfl (by decide) (by decide) (by decide) (by decide) (by decide) (by decide)

/-- Claim C2 counterexample: running DeliveredItemsService.markAsDelivered
on a concrete store leaves the source LostItem in the lost-items repository
with status delivered while the DeliveredItem copied from it exists, so a
DeliveredItem and a LostItem for the same logical item coexist after an
operation of the system. -/
theorem markAsDelivered_dual_representation :
    ((markAsDelivered ⟨[⟨1, "Bag", "Black bag", "YYZ", "Luggage", "onHand", [],
        2, 3, "AC101", 10, none, none⟩], []⟩
      ⟨1, "Bag", "Black bag", "YYZ", "Luggage", "onHand", [],
        2, 3, "AC101", 10, none, none⟩
      ⟨"Cust", "c@x", "555"⟩ 7 100 9).2.lostItems.countP
        (fun i => i.status == "delivered")) = 1 ∧
    ((markAsDelivered ⟨[⟨1, "Bag", "Black bag", "YYZ", "Luggage", "onHand", [],
        2, 3, "AC101", 10, none, none⟩], []⟩
      ⟨1, "Bag", "Black bag", "YYZ", "Luggage", "onHand", [],
        2, 3, "AC101", 10, none, none⟩
      ⟨"Cust", "c@x", "555"⟩ 7 100 9).2.deliveredItems.length) = 1 := by
  exact ⟨rfl, rfl⟩

/-- Claim C2 amended: the route-level deliver operation does migrate the
record — after deliverItem no LostItem with the delivered id remains and no
LostItem with status delivered is introduced — but
DeliveredItemsService.markAsDelivered violates the invariant, so it does not
hold after every operation of the system. -/
theorem deliverItem_no_dual_representation
    (st : St) (itemId : Nat) (req : DeliverRequest) (actorId now newId : Nat)
    (hclean : ∀ i ∈ st.lostItems, i.status ≠ "delivered") :
    (∀ d, (deliverItem st itemId req actorId now newId).1 = .ok d →
      ((deliverItem st itemId req actorId now newId).2.lostItems.countP
        (fun i => i.id == itemId)) = 0) ∧
    (∀ i ∈ (deliverItem st itemId req actorId now newId).2.lostItems,
      i.status ≠ "delivered") := by
  constructor
  · intro d hd
    simp only [deliverItem] at hd ⊢
    cases hf : findLost st.lostItems itemId with
    | none =>
      simp only [hf] at hd
      exact Except.noConfusion hd
    | some item =>
      simp only [hf] at hd ⊢
      by_cases hv : req.receiverName = "" ∨ req.receiverEmail = ""
          ∨ req.receiverPhone = "" ∨ req.receiverIdentification = ""
          ∨ req.signature = ""
      · rw [if_pos hv] at hd; simp at hd
      · rw [if_neg hv]
        simp only [List.countP_eq_zero]
        intro a ha
        rw [List.mem_filter] at ha
        simpa using ha.2
  · intro i hi
    simp only [deliverItem] at hi
    cases hf : findLost st.lostItems itemId with
    | none =>
      simp only [hf] at hi
      exact hclean i hi
    | some item =>
      simp only [hf] at hi
      by_cases hv : req.receiverName = "" ∨ req.receiverEmail = ""
          ∨ req.receiverPhone = "" ∨ req.receiverIdentification = ""
          ∨ req.signature = ""
      · rw [if_pos hv] at hi
        exact hclean i hi
      · rw [if_neg hv] at hi
        simp only [List.mem_filter] at hi
        exact hclean i hi.1

/-- Witness for the amended C2 at a concrete store with one on-hand item. -/
theorem deliverItem_no_dual_representation_witness :
    (∀ d, (deliverItem ⟨[⟨1, "Bag", "Black bag", "YYZ", "Luggage", "onHand", [],
          2, 3, "AC101", 10, none, none⟩], []⟩
        1 ⟨"Cust", "c@x", "555", "ID9", "note", "sig", []⟩ 7 100 9).1 = .ok d →
      ((deliverItem ⟨[⟨1, "Bag", "Black bag", "YYZ", "Luggage", "onHand", [],
          2, 3, "AC101", 10, none, none⟩], []⟩
        1 ⟨"Cust", "c@x", "555", "ID9", "note", "sig", []⟩ 7 100 9).2.lostItems.countP
        (fun i => i.id == 1)) = 0) ∧
    (∀ i ∈ (deliverItem ⟨[⟨1, "Bag", "Black bag", "YYZ", "Luggage", "onHand", [],
          2, 3, "AC101", 10, none, none⟩], []⟩
        1 ⟨"Cust", "c@x", "555", "ID9", "note", "sig", []⟩ 7 100 9).2.lostItems,
      i.status ≠ "delivered") :=
  deliverItem_no_dual_representation _ 1 _ 7 100 9 (by decide)

/-- Claim C3 counterexample: reverting a concrete DeliveredItem whose
found-date is 10 and whose delivery date is 20 creates a LostItem with
dateFound 20 — the delivery date, not the found-date 10 the claim
requires. -/
theorem revertItem_dateFound_counterexample :
    ((revertItem ⟨[], [⟨5, "Bag", "Black bag", "YYZ", "Luggage", [], 2, 3,
        ⟨"Cust", "c@x", "555", "ID9", "sig"⟩, "", [], 4, "AC101", 10, 20, false⟩]⟩
      5 ⟨9, "E9", "pw", "Ad", "Min", "admin", [], 0, 0⟩ 11).1.map
        (fun l => l.dateFound)) = Except.ok 20 ∧ (20 : Nat) ≠ 10 :=
  ⟨rfl, by decide⟩

/-- Claim C3 amended: the admin-only revert operation creates a new LostItem
carrying over the owner, descriptive fields and images, with dateFound equal
to the delivery record dateDelivered (the date the item was delivered, not
the date it was originally found and not the current time) and status
onHand, sets the acting admin as supervisor, and deletes the
DeliveredItem. -/
theorem revertItem_synthesizes_lost_item
    (st : St) (deliveredId : Nat) (actor : User) (newLostId : Nat)
    (d : DeliveredItem)
    (hadmin : actor.role = "admin")
    (hfind : findDelivered st.deliveredItems deliveredId = some d) :
    ∃ l : LostItem,
      (revertItem st deliveredId actor newLostId).1 = .ok l ∧
      l.itemName = d.itemName ∧
      l.description = d.description ∧
      l.location = d.location ∧
      l.category = d.category ∧
      l.flightNumber = d.flightNumber ∧
      l.images = d.images ∧
      l.foundBy = d.foundBy ∧
      l.supervisor = actor.id ∧
      l.dateFound = d.dateDelivered ∧
      l.status = "onHand" ∧
      (revertItem st deliveredId actor newLostId).2.lostItems
        = st.lostItems ++ [l] ∧
      ((revertItem st deliveredId actor newLostId).2.deliveredItems.countP
        (fun x => x.id == deliveredId)) = 0 := by
  simp only [revertItem]
  rw [if_neg (by simp [hadmin]), hfind]
  refine ⟨_, rfl, rfl, rfl, rfl, rfl, rfl, rfl, rfl, rfl, rfl, rfl, rfl, ?_⟩
  rw [List.countP_eq_zero]
  intro a ha
  rw [List.mem_filter] at ha
  simpa using ha.2

/-- Witness for the amended C3 at a concrete delivered item. -/
theorem revertItem_synthesizes_lost_item_witness :
    ∃ l : LostItem,
      (revertItem ⟨[], [⟨5, "Bag", "Black bag", "YYZ", "Luggage", [], 2, 3,
          ⟨"Cust", "c@x", "555", "ID9", "sig"⟩, "", [], 4, "AC101", 10, 20, false⟩]⟩
        5 ⟨9, "E9", "pw", "Ad", "Min", "admin", [], 0, 0⟩ 11).1 = .ok l ∧
      l.itemName = "Bag" ∧
      l.description = "Black bag" ∧
      l.location = "YYZ" ∧
      l.category = "Luggage" ∧
      l.flightNumber = "AC101" ∧
      l.images = [] ∧
      l.foundBy = 2 ∧
      l.supervisor = 9 ∧
      l.dateFound = 20 ∧
      l.status = "onHand" ∧
      (revertItem ⟨[], [⟨5, "Bag", "Black bag", "YYZ", "Luggage", [], 2, 3,
          ⟨"Cust", "c@x", "555", "ID9", "sig"⟩, "", [], 4, "AC101", 10, 20, false⟩]⟩
        5 ⟨9, "E9", "pw", "Ad", "Min", "admin", [], 0, 0⟩ 11).2.lostItems
        = [] ++ [l] ∧
      ((revertItem ⟨[], [⟨5, "Bag", "Black bag", "YYZ", "Luggage", [], 2, 3,
          ⟨"Cust", "c@x", "555", "ID9", "sig"⟩, "", [], 4, "AC101", 10, 20, false⟩]⟩
        5 ⟨9, "E9", "pw", "Ad", "Min", "admin", [], 0, 0⟩ 11).2.deliveredItems.countP
        (fun x => x.id == 5)) = 0 :=
  revertItem_synthesizes_lost_item
    ⟨[], [⟨5, "Bag", "Black bag", "YYZ", "Luggage", [], 2, 3,
        ⟨"Cust", "c@x", "555", "ID9", "sig"⟩, "", [], 4, "AC101", 10, 20, false⟩]⟩
    5 ⟨9, "E9", "pw", "Ad", "Min", "admin", [], 0, 0⟩ 11
    ⟨5, "Bag", "Black bag", "YYZ", "Luggage", [], 2, 3,
      ⟨"Cust", "c@x", "555", "ID9", "sig"⟩, "", [], 4, "AC101", 10, 20, false⟩
    rfl rfl

/-- Claim C4 counterexample: in the second lost-items router an employee who
is neither admin nor supervisor and does not own the item is not denied — a
concrete update by such an actor succeeds and changes the stored item, and
the matching delete succeeds and removes it, so a write action on an item
they do not own is not always denied with Forbidden. -/
theorem second_router_write_counterexample :
    (updateItem2 ⟨[⟨1, "Bag", "old", "YYZ", "Luggage", "onHand", [],
        2, 3, "AC101", 10, none, none⟩], []⟩ 1
      ⟨6, "E6", "pw", "Eve", "Emp", "employee", [], 0, 0⟩
      ⟨none, some "new", none, none, none, none, none⟩).1
      = .ok ⟨1, "Bag", "new", "YYZ", "Luggage", "onHand", [],
          2, 3, "AC101", 10, none, none⟩ ∧
    (updateItem2 ⟨[⟨1, "Bag", "old", "YYZ", "Luggage", "onHand", [],
        2, 3, "AC101", 10, none, none⟩], []⟩ 1
      ⟨6, "E6", "pw", "Eve", "Emp", "employee", [], 0, 0⟩
      ⟨none, some "new", none, none, none, none, none⟩).2.lostItems
      = [⟨1, "Bag", "new", "YYZ", "Luggage", "onHand", [],
          2, 3, "AC101", 10, none, none⟩] ∧
    ("new" : String) ≠ "old" ∧
    ("employee" : String) ≠ "admin" ∧
    ("employee" : String) ≠ "supervisor" ∧
    (2 : Nat) ≠ 6 ∧
    (deleteItem2 ⟨[⟨1, "Bag", "old", "YYZ", "Luggage", "onHand", [],
        2, 3, "AC101", 10, none, none⟩], []⟩ 1
      ⟨6, "E6", "pw", "Eve", "Emp", "employee", [], 0, 0⟩).1 = .ok () ∧
    (deleteItem2 ⟨[⟨1, "Bag", "old", "YYZ", "Luggage", "onHand", [],
        2, 3, "AC101", 10, none, none⟩], []⟩ 1
      ⟨6, "E6", "pw", "Eve", "Emp", "employee", [], 0, 0⟩).2.lostItems = [] :=
  ⟨rfl, rfl, by decide, by decide, by decide, by decide, rfl, rfl⟩

/-- Claim C4 amended: in the first lost-items router, for every
authenticated actor whose role is neither admin nor supervisor and whose
identity differs from the item foundBy owner, update and delete are denied
with Forbidden regardless of the payload, and the store is unchanged; the
second lost-items router, however, performs no such check (see the
counterexample). -/
theorem first_router_denies_nonowner_writes
    (st : St) (itemId : Nat) (actor : User) (p : UpdatePayload)
    (item : LostItem)
    (hfind : findLost st.lostItems itemId = some item)
    (h1 : actor.role ≠ "admin") (h2 : actor.role ≠ "supervisor")
    (h3 : item.foundBy ≠ actor.id) :
    (updateItem1 st itemId actor p).1 = .error .forbidden ∧
    (updateItem1 st itemId actor p).2 = st ∧
    (deleteItem1 st itemId actor).1 = .error .forbidden ∧
    (deleteItem1 st itemId actor).2 = st := by
  simp only [updateItem1, deleteItem1, hfind]
  rw [if_pos ⟨h1, h2, h3⟩, if_pos ⟨h1, h2, h3⟩]
  exact ⟨rfl, rfl, rfl, rfl⟩

/-- Witness for the amended C4: a concrete non-owner employee is denied by
the first router. -/
theorem first_router_denies_nonowner_writes_witness :
    (updateItem1 ⟨[⟨1, "Bag", "old", "YYZ", "Luggage", "onHand", [],
        2, 3, "AC101", 10, none, none⟩], []⟩ 1
      ⟨6, "E6", "pw", "Eve", "Emp", "employee", [], 0, 0⟩
      ⟨none, some "new", none, none, none, none, none⟩).1
      = .error .forbidden ∧
    (updateItem1 ⟨[⟨1, "Bag", "old", "YYZ", "Luggage", "onHand", [],
        2, 3, "AC101", 10, none, none⟩], []⟩ 1
      ⟨6, "E6", "pw", "Eve", "Emp", "employee", [], 0, 0⟩
      ⟨none, some "new", none, none, none, none, none⟩).2
      = ⟨[⟨1, "Bag", "old", "YYZ", "Luggage", "onHand", [],
          2, 3, "AC101", 10, none, none⟩], []⟩ ∧
    (deleteItem1 ⟨[⟨1, "Bag", "old", "YYZ", "Luggage", "onHand", [],
        2, 3, "AC101", 10, none, none⟩], []⟩ 1
      ⟨6, "E6", "pw", "Eve", "Emp", "employee", [], 0, 0⟩).1
      = .error .forbidden ∧
    (deleteItem1 ⟨[⟨1, "Bag", "old", "YYZ", "Luggage", "onHand", [],
        2, 3, "AC101", 10, none, none⟩], []⟩ 1
      ⟨6, "E6", "pw", "Eve", "Emp", "employee", [], 0, 0⟩).2
      = ⟨[⟨1, "Bag", "old", "YYZ", "Luggage", "onHand", [],
          2, 3, "AC101", 10, none, none⟩], []⟩ :=
  first_router_denies_nonowner_writes
    ⟨[⟨1, "Bag", "old", "YYZ", "Luggage", "onHand", [],
        2, 3, "AC101", 10, none, none⟩], []⟩ 1
    ⟨6, "E6", "pw", "Eve", "Emp", "employee", [], 0, 0⟩
    ⟨none, some "new", none, none, none, none, none⟩
    ⟨1, "Bag", "old", "YYZ", "Luggage", "onHand", [],
      2, 3, "AC101", 10, none, none⟩
    rfl (by decide) (by decide) (by decide)

/-- Claim C5: the authentication gate fails exactly when no credential is
supplied, the credential signature is invalid, the credential is expired, or
the referenced User record no longer exists; in every other case it attaches
the normalized identity context (id, employee number, name, role, permission
set) built from the stored User record and proceeds. -/
theorem authGate_exact_failure_conditions (users : List User) (cred : Credential) :
    ((∃ e, authGate users cred = .error e) ↔
      (cred = .missing ∨ cred = .badSignature ∨ cred = .expired ∨
        ∃ uid, cred = .valid uid ∧ findUser users uid = none)) ∧
    (∀ uid u, cred = .valid uid → findUser users uid = some u →
      authGate users cred = .ok (mkIdentity u)) := by
  constructor
  · cases cred with
    | missing => simp [authGate]
    | badSignature => simp [authGate]
    | expired => simp [authGate]
    | valid uid =>
      cases hf : findUser users uid with
      | none => simp [authGate, hf]
      | some u => simp [authGate, hf]
  · intro uid u hc hf
    subst hc
    simp [authGate, hf]

/-- Witness for C5: the gate admits a concrete stored user and attaches the
normalized identity. -/
theorem authGate_exact_failure_conditions_witness :
    authGate [⟨1, "E1", "pw", "Al", "Ba", "employee", [2, 4], 5, 6⟩] (.valid 1)
      = .ok (mkIdentity ⟨1, "E1", "pw", "Al", "Ba", "employee", [2, 4], 5, 6⟩) :=
  (authGate_exact_failure_conditions
    [⟨1, "E1", "pw", "Al", "Ba", "employee", [2, 4], 5, 6⟩] (.valid 1)).2
    1 ⟨1, "E1", "pw", "Al", "Ba", "employee", [2, 4], 5, 6⟩ rfl rfl

/-- Claim C7: deleting a Permission that is referenced by at least one User
fails listing every referencing user (id, name, employee number) and leaves
the permission catalog unchanged; once no User references it, the same
operation deletes the permission and succeeds. -/
theorem deletePermission_referential_integrity
    (st : PermSt) (actor : User) (permId : Nat) (q : Permission)
    (hadm : actor.role = "admin")
    (hfind : st.perms.find? (fun r => r.id == permId) = some q) :
    (((st.users.filter (fun u => u.permissions.contains q.id)) ≠ []) →
      (deletePermission st actor permId).1
        = .inUse ((st.users.filter (fun u => u.permissions.contains q.id)).map mkRefUser) ∧
      (deletePermission st actor permId).2 = st ∧
      (∀ u ∈ st.users, u.permissions.contains q.id →
        mkRefUser u
          ∈ (st.users.filter (fun v => v.permissions.contains q.id)).map mkRefUser)) ∧
    (((st.users.filter (fun u => u.permissions.contains q.id)) = []) →
      (deletePermission st actor permId).1 = .success ∧
      (deletePermission st actor permId).2.perms
        = st.perms.filter (fun r => r.id != permId) ∧
      (∀ r ∈ (deletePermission st actor permId).2.perms, r.id ≠ permId)) := by
  simp only [deletePermission, hfind]
  rw [if_neg (by simp [hadm])]
  constructor
  · intro hne
    have hlen : (st.users.filter (fun u => u.permissions.contains q.id)).length > 0 :=
      List.length_pos.mpr hne
    rw [if_pos hlen]
    refine ⟨rfl, rfl, fun u hu hq => ?_⟩
    exact List.mem_map_of_mem _ (List.mem_filter.mpr ⟨hu, hq⟩)
  · intro heq
    rw [if_neg (by rw [heq]; simp)]
    refine ⟨rfl, rfl, fun r hr => ?_⟩
    have hx := (List.mem_filter.mp hr).2
    simpa using hx

/-- Witness for C7: a concrete referenced permission is blocked with the
referencing user listed, and an unreferenced one is deleted. -/
theorem deletePermission_referential_integrity_witness :
    (deletePermission
      ⟨[⟨1, "view_items", "d"⟩], [⟨2, "E2", "pw", "Al", "Ba", "employee", [1], 0, 0⟩]⟩
      ⟨9, "E9", "pw", "Ad", "Min", "admin", [], 0, 0⟩ 1).1
      = .inUse [⟨2, "Al Ba", "E2"⟩] ∧
    (deletePermission
      ⟨[⟨1, "view_items", "d"⟩], [⟨2, "E2", "pw", "Al", "Ba", "employee", [1], 0, 0⟩]⟩
      ⟨9, "E9", "pw", "Ad", "Min", "admin", [], 0, 0⟩ 1).2
      = ⟨[⟨1, "view_items", "d"⟩], [⟨2, "E2", "pw", "Al", "Ba", "employee", [1], 0, 0⟩]⟩ ∧
    (deletePermission
      ⟨[⟨1, "view_items", "d"⟩], [⟨2, "E2", "pw", "Al", "Ba", "employee", [], 0, 0⟩]⟩
      ⟨9, "E9", "pw", "Ad", "Min", "admin", [], 0, 0⟩ 1).1 = .success ∧
    (deletePermission
      ⟨[⟨1, "view_items", "d"⟩], [⟨2, "E2", "pw", "Al", "Ba", "employee", [], 0, 0⟩]⟩
      ⟨9, "E9", "pw", "Ad", "Min", "admin", [], 0, 0⟩ 1).2.perms = [] := by
  have hblocked := (deletePermission_referential_integrity
    ⟨[⟨1, "view_items", "d"⟩], [⟨2, "E2", "pw", "Al", "Ba", "employee", [1], 0, 0⟩]⟩
    ⟨9, "E9", "pw", "Ad", "Min", "admin", [], 0, 0⟩ 1 ⟨1, "view_items", "d"⟩
    rfl rfl).1 (by decide)
  have hfree := (deletePermission_referential_integrity
    ⟨[⟨1, "view_items", "d"⟩], [⟨2, "E2", "pw", "Al", "Ba", "employee", [], 0, 0⟩]⟩
    ⟨9, "E9", "pw", "Ad", "Min", "admin", [], 0, 0⟩ 1 ⟨1, "view_items", "d"⟩
    rfl rfl).2 (by decide)
  exact ⟨hblocked.1, hblocked.2.1, hfree.1, hfree.2.1⟩

/-- Claim C9: every User record created by either register handler has role
employee, and two registration requests that differ only in the role field
of the payload produce identical results, so the payload cannot select a
role at registration. -/
theorem register_role_fixed
    (users : List User) (catalog : List Permission)
    (p p₁ p₂ : RegisterPayload) (newId now : Nat) :
    (∀ u, register1 users catalog p newId now = .ok u → u.role = "employee") ∧
    (∀ u, register2 users p newId now = .ok u → u.role = "employee") ∧
    (p₁.employeeNumber = p₂.employeeNumber → p₁.password = p₂.password →
      p₁.firstName = p₂.firstName → p₁.lastName = p₂.lastName →
      register1 users catalog p₁ newId now = register1 users catalog p₂ newId now ∧
      register2 users p₁ newId now = register2 users p₂ newId now) := by
  refine ⟨?_, ?_, ?_⟩
  · intro u hu
    unfold register1 at hu
    by_cases h : (users.find? (fun v => v.employeeNumber == p.employeeNumber)).isSome
    · rw [if_pos h] at hu
      exact Except.noConfusion hu
    · rw [if_neg h] at hu
      by_cases h2 : (catalog.filter
          (fun q => defaultPermissionNames.contains q.name)).length = 0
      · rw [if_pos h2] at hu
        exact Except.noConfusion hu
      · rw [if_neg h2] at hu
        simp only [Except.ok.injEq] at hu
        rw [← hu]
  · intro u hu
    unfold register2 at hu
    by_cases h : (users.find? (fun v => v.employeeNumber == p.employeeNumber)).isSome
    · rw [if_pos h] at hu
      exact Except.noConfusion hu
    · rw [if_neg h] at hu
      simp only [Except.ok.injEq] at hu
      rw [← hu]
  · intro h1 h2 h3 h4
    constructor
    · unfold register1
      rw [h1, h2, h3, h4]
    · unfold register2
      rw [h1, h2, h3, h4]

/-- Witness for C9: a concrete registration yields an employee, and two
concrete payloads differing only in a supplied role produce the same
result. -/
theorem register_role_fixed_witness :
    ({ id := 1, employeeNumber := "E1", password := "secret", firstName := "Al",
       lastName := "Ba", role := "employee", permissions := [], createdAt := 0,
       updatedAt := 0 } : User).role = "employee" ∧
    register2 [] ⟨"E1", "secret", "Al", "Ba", "admin"⟩ 1 0
      = register2 [] ⟨"E1", "secret", "Al", "Ba", "employee"⟩ 1 0 :=
  ⟨(register_role_fixed [] [] ⟨"E1", "secret", "Al", "Ba", "admin"⟩
      ⟨"E1", "secret", "Al", "Ba", "admin"⟩
      ⟨"E1", "secret", "Al", "Ba", "employee"⟩ 1 0).2.1 _ rfl,
   ((register_role_fixed [] [] ⟨"E1", "secret", "Al", "Ba", "admin"⟩
      ⟨"E1", "secret", "Al", "Ba", "admin"⟩
      ⟨"E1", "secret", "Al", "Ba", "employee"⟩ 1 0).2.2 rfl rfl rfl rfl).2⟩

/-- The catalog entries matched by a request list of permission names form,
after projecting to names, a duplicate-free list of names drawn from the
request list, so when the catalog names are unique the match count is
bounded by the number of distinct requested names. -/
theorem matched_permissions_lt_of_bad_names
    (perms : List Permission) (names : List String)
    (hnodup : (perms.map Permission.name).Nodup)
    (hbad : ¬ names.Nodup ∨ ∃ n ∈ names, n ∉ perms.map Permission.name) :
    (perms.filter (fun q => names.contains q.name)).length < names.length := by
  set valid := perms.filter (fun q => names.contains q.name) with hvalid
  have hsub : (valid.map Permission.name).Sublist (perms.map Permission.name) :=
    (List.filter_sublist perms).map Permission.name
  have hvnd : (valid.map Permission.name).Nodup := hnodup.sublist hsub
  have hmemnames : ∀ x ∈ valid.map Permission.name, x ∈ names := by
    intro x hx
    rw [List.mem_map] at hx
    obtain ⟨q, hq, rfl⟩ := hx
    have := (List.mem_filter.mp hq).2
    simpa using this
  have hmemperms : ∀ x ∈ valid.map Permission.name, x ∈ perms.map Permission.name := by
    intro x hx
    rw [List.mem_map] at hx
    obtain ⟨q, hq, rfl⟩ := hx
    exact List.mem_map_of_mem _ (List.mem_filter.mp hq).1
  have hlen : valid.length = (valid.map Permission.name).length :=
    (List.length_map _ _).symm
  have hcard : (valid.map Permission.name).toFinset.card
      = (valid.map Permission.name).length :=
    List.toFinset_card_of_nodup hvnd
  rw [hlen, ← hcard]
  rcases hbad with hdup | ⟨n, hn, hnmem⟩
  · have hss : (valid.map Permission.name).toFinset ⊆ names.toFinset := by
      intro x hx
      exact List.mem_toFinset.mpr (hmemnames x (List.mem_toFinset.mp hx))
    have hdedlt : names.dedup.length < names.length := by
      rcases Nat.lt_or_ge names.dedup.length names.length with h | h
      · exact h
      · exfalso
        have hle := (List.dedup_sublist names).length_le
        have heq := (List.dedup_sublist names).eq_of_length (Nat.le_antisymm hle h)
        exact hdup (heq ▸ List.nodup_dedup names)
    calc (valid.map Permission.name).toFinset.card
        ≤ names.toFinset.card := Finset.card_le_card hss
      _ = names.dedup.length := List.card_toFinset names
      _ < names.length := hdedlt
  · have hss : (valid.map Permission.name).toFinset ⊆ names.toFinset.erase n := by
      intro x hx
      rw [List.mem_toFinset] at hx
      refine Finset.mem_erase.mpr ⟨?_, List.mem_toFinset.mpr (hmemnames x hx)⟩
      intro hxn
      exact hnmem (hxn ▸ hmemperms x hx)
    calc (valid.map Permission.name).toFinset.card
        ≤ (names.toFinset.erase n).card := Finset.card_le_card hss
      _ < names.toFinset.card :=
          Finset.card_erase_lt_of_mem (List.mem_toFinset.mpr hn)
      _ ≤ names.length := names.toFinset_card_le

/-- Claim C10: with a duplicate-free permission catalog, an
update-user-permissions request whose name list contains a repeated name or
any name absent from the catalog is rejected with a validation failure and
the store, including the target user permission set, is unchanged, because
the number of distinct catalog permissions matched by the list must equal
the list length for the replacement to proceed. -/
theorem updateUserPermissions_rejects_bad_names
    (st : PermSt) (actor : User) (userId : Nat) (names : List String)
    (hadm : actor.role = "admin")
    (hnodup : (st.perms.map Permission.name).Nodup)
    (hbad : ¬ names.Nodup ∨ ∃ n ∈ names, n ∉ st.perms.map Permission.name) :
    (updateUserPermissions st actor userId names).1 = .invalidPermissions ∧
    (updateUserPermissions st actor userId names).2 = st := by
  have hlt := matched_permissions_lt_of_bad_names st.perms names hnodup hbad
  simp only [updateUserPermissions]
  rw [if_neg (by simp [hadm]), if_pos (Nat.ne_of_lt hlt)]
  exact ⟨rfl, rfl⟩

/-- Witness for C10: a request repeating a catalog name is rejected and the
store survives unchanged. -/
theorem updateUserPermissions_rejects_bad_names_witness :
    (updateUserPermissions
      ⟨[⟨1, "view_items", "d"⟩, ⟨2, "edit_items", "d"⟩],
       [⟨3, "E3", "pw", "Al", "Ba", "employee", [1], 0, 0⟩]⟩
      ⟨9, "E9", "pw", "Ad", "Min", "admin", [], 0, 0⟩ 3
      ["view_items", "view_items"]).1 = .invalidPermissions ∧
    (updateUserPermissions
      ⟨[⟨1, "view_items", "d"⟩, ⟨2, "edit_items", "d"⟩],
       [⟨3, "E3", "pw", "Al", "Ba", "employee", [1], 0, 0⟩]⟩
      ⟨9, "E9", "pw", "Ad", "Min", "admin", [], 0, 0⟩ 3
      ["view_items", "view_items"]).2
      = ⟨[⟨1, "view_items", "d"⟩, ⟨2, "edit_items", "d"⟩],
         [⟨3, "E3", "pw", "Al", "Ba", "employee", [1], 0, 0⟩]⟩ :=
  updateUserPermissions_rejects_bad_names
    ⟨[⟨1, "view_items", "d"⟩, ⟨2, "edit_items", "d"⟩],
     [⟨3, "E3", "pw", "Al", "Ba", "employee", [1], 0, 0⟩]⟩
    ⟨9, "E9", "pw", "Ad", "Min", "admin", [], 0, 0⟩ 3
    ["view_items", "view_items"] rfl (by decide) (Or.inl (by decide))

/-- Claim C8 counterexample: the placeholder identity substituted for an
unresolved reference carries a freshly generated ObjectId, so two
substitutions for the same missing reference differ — the substituted
identity is not a single deterministic sentinel value. -/
theorem placeholder_identity_not_sentinel :
    cleanRef 1 UserRef.missing ≠ cleanRef 2 UserRef.missing := by
  decide

/-- Claim C8 amended: every list-items read succeeds, returning one cleaned
entry per fetched item; a reference that is missing or a bare identifier is
replaced by a placeholder identity with firstName Unknown, lastName User and
employeeNumber N/A but a freshly generated id (not a fixed sentinel), while
a resolved reference is passed through unchanged. -/
theorem list_read_substitutes_placeholder
    (gen : Nat → Nat) (items : List RawListedItem) (f : Nat) (r : UserRef) :
    (listItems gen items).length = items.length ∧
    ((∀ u, r ≠ UserRef.resolved u) → cleanRef f r = createPlaceholderUser f) ∧
    (∀ u, r = UserRef.resolved u → cleanRef f r = u) ∧
    (createPlaceholderUser f).firstName = "Unknown" ∧
    (createPlaceholderUser f).lastName = "User" ∧
    (createPlaceholderUser f).employeeNumber = "N/A" := by
  refine ⟨?_, ?_, ?_, rfl, rfl, rfl⟩
  · simp [listItems]
  · intro hnr
    cases r with
    | missing => rfl
    | unresolved i => rfl
    | resolved u => exact absurd rfl (hnr u)
  · intro u hu
    subst hu
    rfl

/-- Witness for the amended C8 at a concrete fetched list with a dangling
owner reference. -/
theorem list_read_substitutes_placeholder_witness :
    (listItems (fun n => n + 50)
      [⟨1, UserRef.missing, UserRef.unresolved 3,
        UserRef.resolved ⟨4, "Ca", "Da", "E4"⟩⟩]).length = 1 ∧
    cleanRef 7 UserRef.missing = createPlaceholderUser 7 ∧
    (createPlaceholderUser 7).firstName = "Unknown" ∧
    (createPlaceholderUser 7).lastName = "User" ∧
    (createPlaceholderUser 7).employeeNumber = "N/A" := by
  have h := list_read_substitutes_placeholder (fun n => n + 50)
    [⟨1, UserRef.missing, UserRef.unresolved 3,
      UserRef.resolved ⟨4, "Ca", "Da", "E4"⟩⟩] 7 UserRef.missing
  exact ⟨h.1, h.2.1 (fun u hu => UserRef.noConfusion hu), h.2.2.2.1,
    h.2.2.2.2.1, h.2.2.2.2.2⟩

end AirCanadaLF
